import Mathlib

/-!
# CppAwait, `Examples/ex_awaitThread.cpp`

A shallow embedding of the example program that implements an Awaitable on top
of OS threads: the two worker threads (`countdownThread`, `keyThread`), the
coroutine bodies `asyncCountdown`, `asyncKey`, `asyncThread`, and the parts of
the CppAwait runtime they call.

Every piece of code becomes a function that returns the sequence of actions the
code performs (its trace).  What the environment decides (the value of
`isInterrupted` seen at each read, the number of wake-ups of a timed wait, the
signal delivered at a suspension point) is an explicit argument.
-/

namespace CppAwait

/-! ## Actions -/

/-- The callbacks that the program hands to `sIo.post`. -/
inductive Callback where
  /-- The `ut::Completer` returned by `awtLiftoff.takeCompleter()` (line 71), posted at line 69. -/
  | completer
  /-- The closure `[&]() { ut::yieldTo(coro); }` of lines 101-104, holding the raw `ut::Coro *coro`. -/
  | yieldToCoro
  deriving DecidableEq, Repr

/-- The two background threads of the program. -/
inductive Worker where
  | countdownThread
  | keyThread
  deriving DecidableEq, Repr

/-- One observable step of the program. -/
inductive Action where
  /-- The call `printf (fmt, args...)`. -/
  | printf (fmt : String) (args : List Nat)
  /-- Acquiring `mutex` (`unique_lock` / `lock_guard` constructor). -/
  | lock
  /-- Releasing `mutex` (`unique_lock` / `lock_guard` destructor). -/
  | unlock
  /-- One blocking `cond.wait_until(lock, timepoint)` inside the predicate overload. -/
  | condWait
  /-- The assignment `isInterrupted = v`. -/
  | setInterrupted (v : Bool)
  /-- The call `cond.notify_one()`. -/
  | notifyOne
  /-- The call `readLine()`. -/
  | readLine
  /-- The call `sIo.post(cb)`. -/
  | post (cb : Callback)
  /-- The call `sIo.stop()`. -/
  | ioStop
  /-- The call `awtLiftoff.takeCompleter()`. -/
  | takeCompleter
  /-- The call `ut::currentCoro()`. -/
  | currentCoro
  /-- Construction of a `thread` object running the given worker. -/
  | spawn (w : Worker)
  /-- The call `t.join()`. -/
  | join (w : Worker)
  /-- The call `t.detach()`. -/
  | detach (w : Worker)
  /-- The call `awtLiftoff.await()`: the coroutine suspends here. -/
  | await
  /-- The call `ut::yield()`: the coroutine suspends here. -/
  | yield
  /-- The call `ut::awaitAny(awtCountdown, awtKey)`: the coroutine suspends here. -/
  | awaitAny
  /-- The call `ut::yieldTo(coro)`: switch into the coroutine `coro`. -/
  | yieldTo
  /-- Invocation of the completer, `completer()`. -/
  | invokeCompleter
  /-- A `ut::ForcedUnwind` is caught by the `catch` clause of the body. -/
  | caughtForcedUnwind
  deriving DecidableEq, Repr

/-- The operations of the coroutine runtime: invoking a completer, `yieldTo`,
`await`, `yield` (and the combinator `awaitAny`). -/
def Action.isCoroOp : Action → Bool
  | .invokeCompleter => true
  | .yieldTo => true
  | .await => true
  | .yield => true
  | .awaitAny => true
  | _ => false

/-- The suspension points of a coroutine body. -/
def Action.isSuspension : Action → Bool
  | .await => true
  | .yield => true
  | .awaitAny => true
  | .yieldTo => true
  | _ => false

/-- The actions that face the runtime (the coroutine library or the run loop
`sIo`): the coroutine operations and the calls on `sIo`. -/
def Action.isRuntimeFacing : Action → Bool
  | .post _ => true
  | .ioStop => true
  | .takeCompleter => true
  | .currentCoro => true
  | a => a.isCoroOp

/-! ## The countdown thread (lines 48-71) -/

/-- What the environment of the countdown thread decides. -/
structure Schedule where
  /-- The value of `isInterrupted` that the thread sees at its `n`-th read. -/
  flag : Nat → Bool
  /-- The number of wake-ups without timeout of the timed wait in the iteration
  with the given `i`, before the wait at last times out. -/
  wakes : Nat → Nat

/-- The state of a run of the countdown thread. -/
structure Run where
  /-- The loop variable `i`. -/
  i : Nat
  /-- The number of reads of `isInterrupted` made so far. -/
  reads : Nat
  /-- The actions performed so far. -/
  trace : List Action
  deriving DecidableEq, Repr

/-- Line 56, `cond.wait_until(lock, timepoint, [&] { return isInterrupted; })`,
which the C++ library defines as
`while (!pred()) if (wait_until(lock, timepoint) == cv_status::timeout) return pred(); return true;`.
The first argument is the number of wake-ups without timeout that remain. -/
def waitUntil (flag : Nat → Bool) : Nat → Run → Run
  | w, r =>
    if flag r.reads then
      { r with reads := r.reads + 1 }
    else
      match w with
      | 0 => { r with reads := r.reads + 2, trace := r.trace ++ [Action.condWait] }
      | w + 1 => waitUntil flag w { r with reads := r.reads + 1, trace := r.trace ++ [Action.condWait] }

/-- The format string of line 52. -/
def countdownFmt : String := "%d seconds until liftoff...\n"

/-- Lines 51-57, `for (int i = 3; i > 0 && !isInterrupted; i--) { ... }`, entered
with `i` equal to the first argument.  `i` only takes the values 3, 2, 1, 0, so
it is a natural number here; `&&` does not read the flag when `i > 0` fails. -/
def countdownLoop (env : Schedule) : Nat → Run → Run
  | 0, r => { r with i := 0 }
  | i + 1, r =>
    if env.flag r.reads then
      { r with i := i + 1, reads := r.reads + 1 }
    else
      let r1 : Run :=
        { i := i + 1, reads := r.reads + 1,
          trace := r.trace ++ [Action.printf countdownFmt [i + 1]] }
      let r2 := waitUntil env.flag (env.wakes (i + 1)) r1
      countdownLoop env i r2

/-- The state of the thread when it leaves the loop of lines 51-57. -/
def afterLoop (env : Schedule) : Run :=
  countdownLoop env 3 { i := 3, reads := 0, trace := [Action.lock] }

/-- Lines 48-71, the body of `countdownThread`. -/
def countdownThread (env : Schedule) : Run :=
  let r := afterLoop env
  if env.flag r.reads then
    { r with reads := r.reads + 1,
             trace := r.trace ++ [Action.printf "liftoff aborted!\n" [], Action.unlock] }
  else
    { r with reads := r.reads + 1,
             trace := r.trace ++ [Action.printf "liftoff!\n" [],
                                  Action.post Callback.completer, Action.unlock] }

/-- The value `N` if the action prints the line "N seconds until liftoff...". -/
def Action.countdownValue : Action → Option Nat
  | Action.printf fmt [n] => if fmt = countdownFmt then some n else none
  | _ => none

/-- The values `N` of the lines "N seconds until liftoff..." in a trace, in order. -/
def countdownValues (t : List Action) : List Nat :=
  t.filterMap Action.countdownValue

/-- The number of times a trace prints the line `msg` (a `printf` without arguments). -/
def printCount (msg : String) (t : List Action) : Nat :=
  t.count (Action.printf msg [])

/-- The callback if the action is `sIo.post(cb)`. -/
def Action.posted : Action → Option Callback
  | Action.post cb => some cb
  | _ => none

/-- The callbacks a trace hands to `sIo.post`, in order. -/
def postedCallbacks (t : List Action) : List Callback :=
  t.filterMap Action.posted

/-- The values `i, i - 1, ...` (`k` of them) that the loop prints when it is
entered with `i` and runs `k` iterations. -/
def countFrom : Nat → Nat → List Nat
  | _, 0 => []
  | i, k + 1 => i :: countFrom (i - 1) k

/-- An action of the loop of lines 51-57: a countdown line or a timed wait. -/
def Action.IsLoopStep (a : Action) : Prop :=
  a = Action.condWait ∨ ∃ n, a = Action.printf countdownFmt [n]

/-- The flag never goes back from true to false. -/
def Schedule.Monotone (env : Schedule) : Prop :=
  ∀ m n, m ≤ n → env.flag m = true → env.flag n = true

/-- The schedule in which nobody interrupts. -/
def noInterrupt : Schedule := { flag := fun _ => false, wakes := fun _ => 0 }

/-- The schedule in which the flag is set from the `k`-th read on. -/
def interruptAt (k : Nat) : Schedule := { flag := fun n => decide (k ≤ n), wakes := fun _ => 1 }

/-! ## The key thread (lines 95-105) -/

/-- Lines 95-105, the body of `keyThread`: `readLine()` and then
`sIo.post([&]() { ut::yieldTo(coro); })`. -/
def keyThread : List Action :=
  [Action.readLine, Action.post Callback.yieldToCoro]

/-! ## Coroutine bodies -/

/-- What a suspended coroutine receives when control is switched back into it. -/
inductive Resume where
  /-- The suspension point returns normally. -/
  | normal
  /-- The suspension point raises `ut::ForcedUnwind`. -/
  | forcedUnwind
  deriving DecidableEq, Repr

/-- The C++ exceptions that occur in the coroutine bodies. -/
inductive Exc where
  /-- The exception `ut::ForcedUnwind`. -/
  | forcedUnwind
  /-- The exception `std::system_error` of `join` / `detach` on a thread that is not joinable. -/
  | systemError
  deriving DecidableEq, Repr

/-- Why a body stops before its last statement. -/
inductive Stop where
  /-- The body is parked at a suspension point and has not been switched into again. -/
  | suspended
  /-- An exception is propagating. -/
  | threw (e : Exc)
  /-- The call `std::terminate()`, made by the destructor of a joinable `thread`. -/
  | terminate
  deriving DecidableEq, Repr

/-- The state of a `thread` object. -/
inductive ThreadStatus where
  | notStarted
  | joinable
  | joined
  | detached
  deriving DecidableEq, Repr

/-- Modelled from the spec: the state of an Awaitable as a Completer sees it
(section 4.3: "still valid and Pending", or "already been completed, cancelled,
or destroyed").  The class `ut::Awaitable` is in `CppAwait/Awaitable.h`, which
is not among the sources. -/
inductive AwtStatus where
  | pending
  | completed
  | cancelled
  | destroyed
  deriving DecidableEq, Repr

/-- The state of one coroutine body and of its local variables. -/
structure CoroState where
  /-- The signals that will be delivered at the suspension points, in order. -/
  inbox : List Resume
  /-- The actions performed so far. -/
  trace : List Action
  /-- Whether the coroutine holds `mutex`. -/
  mutexHeld : Bool
  /-- The local `bool isInterrupted`. -/
  isInterrupted : Bool
  /-- The local `thread` object (`countdownThread` resp. `keyThread`). -/
  thread : ThreadStatus
  /-- The local `ut::Awaitable awtLiftoff`, once constructed. -/
  awtLiftoff : Option AwtStatus
  deriving DecidableEq, Repr

/-- A coroutine body: a computation over `CoroState` that can stop early; the
state reached is kept when it does. -/
abbrev Coro := ExceptT Stop (StateM CoroState)

/-- Append one action to the trace. -/
def act (a : Action) : Coro Unit :=
  modify fun s => { s with trace := s.trace ++ [a] }

/-- A suspension point (`awtLiftoff.await()`, `ut::yield()`): the coroutine
parks; when it is switched into again the call returns or raises
`ut::ForcedUnwind`, as the resumer decides. -/
def suspendAt (a : Action) : Coro Unit := do
  act a
  let s ← get
  match s.inbox with
  | [] => throw Stop.suspended
  | Resume.normal :: rest => set { s with inbox := rest }
  | Resume.forcedUnwind :: rest =>
    set { s with inbox := rest }
    throw (Stop.threw Exc.forcedUnwind)

/-- The construct `try { body } catch (const ut::ForcedUnwind&) { handler }`. -/
def tryCatchForcedUnwind (body handler : Coro Unit) : Coro Unit :=
  tryCatch body fun e =>
    match e with
    | Stop.threw Exc.forcedUnwind => do
      act Action.caughtForcedUnwind
      handler
    | e => throw e

/-- The declaration `lock_guard<timed_mutex> _(mutex);`. -/
def lockGuard : Coro Unit := do
  act Action.lock
  modify fun s => { s with mutexHeld := true }

/-- The destructor of the `lock_guard`, at the end of its block. -/
def lockGuardEnd : Coro Unit := do
  act Action.unlock
  modify fun s => { s with mutexHeld := false }

/-- The assignment `isInterrupted = v;`. -/
def setInterrupted (v : Bool) : Coro Unit := do
  act (Action.setInterrupted v)
  modify fun s => { s with isInterrupted := v }

/-- The constructor of the `thread` object, which starts the worker. -/
def spawn (w : Worker) : Coro Unit := do
  act (Action.spawn w)
  modify fun s => { s with thread := ThreadStatus.joinable }

/-- The call `t.join()`: allowed on a joinable thread only. -/
def joinThread (w : Worker) : Coro Unit := do
  let s ← get
  if s.thread = ThreadStatus.joinable then
    set { s with trace := s.trace ++ [Action.join w], thread := ThreadStatus.joined }
  else
    throw (Stop.threw Exc.systemError)

/-- The call `t.detach()`: allowed on a joinable thread only. -/
def detachThread (w : Worker) : Coro Unit := do
  let s ← get
  if s.thread = ThreadStatus.joinable then
    set { s with trace := s.trace ++ [Action.detach w], thread := ThreadStatus.detached }
  else
    throw (Stop.threw Exc.systemError)

/-- The end of the lambda of a body: unless the body is parked, its locals are
destroyed, whether it returns or an exception leaves it.  The destructor of a
joinable `thread` calls `std::terminate()`; the destructor of `awtLiftoff`
leaves the Awaitable destroyed. -/
def withLocals (body : Coro Unit) : Coro Unit := fun s =>
  match body s with
  | (Except.error Stop.suspended, s1) => (Except.error Stop.suspended, s1)
  | (r, s1) =>
    if s1.thread = ThreadStatus.joinable then
      (Except.error Stop.terminate, s1)
    else
      (r, { s1 with awtLiftoff := s1.awtLiftoff.map fun _ => AwtStatus.destroyed })

/-- Lines 41-87, the body given to `ut::startAsync("asyncCountdown", ...)`. -/
def asyncCountdownBody : Coro Unit := withLocals do
  -- timed_mutex mutex; condition_variable_any cond; bool isInterrupted = false;
  modify fun s => { s with mutexHeld := false, isInterrupted := false }
  -- ut::Awaitable awtLiftoff("evt-liftoff");
  modify fun s => { s with awtLiftoff := some AwtStatus.pending }
  -- thread countdownThread([&](ut::Completer completer) { ... }, awtLiftoff.takeCompleter());
  act Action.takeCompleter
  spawn Worker.countdownThread
  tryCatchForcedUnwind
    (do
      -- awtLiftoff.await(); returns once the completer has run
      suspendAt Action.await
      modify fun s => { s with awtLiftoff := some AwtStatus.completed })
    (do
      act (Action.printf "aborting liftoff...\n" [])
      lockGuard
      setInterrupted true
      act Action.notifyOne
      lockGuardEnd)
  joinThread Worker.countdownThread
  act (Action.printf "\njoined countdown thread\n" [])

/-- Lines 92-118, the body given to `ut::startAsync("asyncKey", ...)`. -/
def asyncKeyBody : Coro Unit := withLocals do
  -- ut::Coro *coro = ut::currentCoro();
  act Action.currentCoro
  -- thread keyThread([&]() { ... });
  spawn Worker.keyThread
  tryCatchForcedUnwind
    (do
      suspendAt Action.yield
      joinThread Worker.keyThread
      act (Action.printf "\njoined key thread\n" []))
    (do
      detachThread Worker.keyThread
      act (Action.printf "\nkilled key thread\n" []))

/-- The state in which a body starts, with the signals its suspension points will receive. -/
def CoroState.init (inbox : List Resume) : CoroState :=
  { inbox := inbox, trace := [], mutexHeld := false, isInterrupted := false,
    thread := ThreadStatus.notStarted, awtLiftoff := none }

/-- Run a body from its start. -/
def Coro.exec (body : Coro Unit) (inbox : List Resume) : Except Stop Unit × CoroState :=
  body (CoroState.init inbox)

/-- The body of `asyncCountdown`, its one suspension point receiving `sig`. -/
def asyncCountdown (sig : Resume) : Except Stop Unit × CoroState :=
  asyncCountdownBody.exec [sig]

/-- The body of `asyncKey`, its one suspension point receiving `sig`. -/
def asyncKey (sig : Resume) : Except Stop Unit × CoroState :=
  asyncKeyBody.exec [sig]

/-! ## Threads of execution -/

/-- The OS threads of the program: the thread that calls `sIo.run()` (it also
runs every coroutine body), and the two workers. -/
inductive ThreadId where
  | main
  | worker (w : Worker)
  deriving DecidableEq, Repr

/-- What the run loop does, on the thread inside `sIo.run()`, when it runs a
posted callback: the completer is invoked, resp. the closure calls `ut::yieldTo(coro)`. -/
def runCallback : Callback → List Action
  | Callback.completer => [Action.invokeCompleter]
  | Callback.yieldToCoro => [Action.yieldTo]

/-- The actions a worker performs on its own stack. -/
def workerActions (env : Schedule) : Worker → List Action
  | Worker.countdownThread => (countdownThread env).trace
  | Worker.keyThread => keyThread

/-- The actions of both workers, each with the thread that performs it. -/
def workerEvents (env : Schedule) : List (ThreadId × Action) :=
  (workerActions env Worker.countdownThread).map (fun a => (ThreadId.worker Worker.countdownThread, a))
    ++ (workerActions env Worker.keyThread).map (fun a => (ThreadId.worker Worker.keyThread, a))

/-- The actions of the run loop when it runs what the workers posted. -/
def loopEvents (env : Schedule) : List (ThreadId × Action) :=
  ((postedCallbacks (workerActions env Worker.countdownThread)
      ++ postedCallbacks (workerActions env Worker.keyThread)).flatMap runCallback).map
    (fun a => (ThreadId.main, a))

/-- The actions of the coroutine bodies, for each signal their suspension point
can receive; bodies run on the main thread. -/
def bodyEvents : List (ThreadId × Action) :=
  ((asyncCountdown Resume.normal).2.trace ++ (asyncCountdown Resume.forcedUnwind).2.trace
    ++ (asyncKey Resume.normal).2.trace ++ (asyncKey Resume.forcedUnwind).2.trace).map
    (fun a => (ThreadId.main, a))

/-- Every action of the program with the thread that performs it. -/
def programEvents (env : Schedule) : List (ThreadId × Action) :=
  workerEvents env ++ loopEvents env ++ bodyEvents

/-! ## The completer (CppAwait runtime) -/

/-- Modelled from the spec: the execution state of a Coroutine Context
(section 3, "execution state ∈ {Suspended, Running, Completed, Unwinding}");
the class is in the CppAwait library, which is not among the sources. -/
inductive CtxStatus where
  | suspended
  | running
  | completed
  | unwinding
  deriving DecidableEq, Repr

/-- Modelled from the spec: the state a Completer can act on (section 4.3): the
Awaitable it is correlated to, the coroutine waiting on that Awaitable, and the
resumptions of that coroutine scheduled on the loop.  `ut::Completer` is in
`CppAwait/Awaitable.h`, which is not among the sources. -/
structure CompletionSlot where
  awt : AwtStatus
  waiter : CtxStatus
  scheduled : Nat
  deriving DecidableEq, Repr

/-- Modelled from the spec: `Completer::operator()()` (section 4.3, in
`CppAwait/Awaitable.h`, not among the sources): "if the correlated Awaitable is
still valid and Pending, deliver completion — this schedules resumption of
whatever coroutine is waiting on that Awaitable.  If the Awaitable has already
been completed, cancelled, or destroyed, the call is a silent no-op." -/
def Completer.invoke (s : CompletionSlot) : CompletionSlot :=
  match s.awt with
  | AwtStatus.pending => { s with awt := AwtStatus.completed, scheduled := s.scheduled + 1 }
  | _ => s

/-- The completion slot of `awtLiftoff` as a run of the body of `asyncCountdown`
leaves it: the Awaitable as the body left it, the body itself as the waiting
coroutine, nothing scheduled. -/
def slotAfter (r : Except Stop Unit × CoroState) : CompletionSlot :=
  { awt := r.2.awtLiftoff.getD AwtStatus.destroyed
    waiter := match r.1 with
      | Except.error Stop.suspended => CtxStatus.suspended
      | _ => CtxStatus.completed
    scheduled := 0 }

/-! ## `asyncThread` (lines 123-137) -/

/-- The three coroutines of the program. -/
inductive Task where
  | asyncThread
  | asyncCountdown
  | asyncKey
  deriving DecidableEq, Repr

/-- Either Awaitable given to `ut::awaitAny` can be the first to complete. -/
inductive Winner where
  | countdown
  | key
  deriving DecidableEq, Repr

/-- The coroutine behind the Awaitable that wins. -/
def Winner.task : Winner → Task
  | Winner.countdown => Task.asyncCountdown
  | Winner.key => Task.asyncKey

/-- The coroutine behind the Awaitable that does not win. -/
def Winner.loser : Winner → Task
  | Winner.countdown => Task.asyncKey
  | Winner.key => Task.asyncCountdown

/-- How a run of a body leaves its coroutine. -/
inductive Phase where
  /-- The body is executing. -/
  | running
  /-- The body is parked at a suspension point. -/
  | suspended
  /-- The body has returned: its last statement and the destructors of its locals are done. -/
  | returned
  /-- An exception has left the body. -/
  | raised (e : Exc)
  /-- The body has called `std::terminate()`. -/
  | terminated
  deriving DecidableEq, Repr

/-- The phase in which a run of a body leaves its coroutine. -/
def phaseOf (r : Except Stop Unit × CoroState) : Phase :=
  match r.1 with
  | Except.ok _ => Phase.returned
  | Except.error Stop.suspended => Phase.suspended
  | Except.error (Stop.threw e) => Phase.raised e
  | Except.error Stop.terminate => Phase.terminated

/-- The state of the program while `asyncThread` runs. -/
structure Program where
  /-- The actions so far, each with the coroutine that performs it. -/
  trace : List (Task × Action)
  /-- The coroutine of `awtCountdown`, once started. -/
  countdown : Option Phase
  /-- The coroutine of `awtKey`, once started. -/
  key : Option Phase
  /-- Whether `std::terminate()` has been called: nothing happens after it. -/
  halted : Bool
  deriving DecidableEq, Repr

/-- The body of a started coroutine. -/
def Task.body : Task → Coro Unit
  | Task.asyncCountdown => asyncCountdownBody
  | Task.asyncKey => asyncKeyBody
  | Task.asyncThread => pure ()

/-- The phase of a coroutine. -/
def Program.status (p : Program) : Task → Option Phase
  | Task.asyncCountdown => p.countdown
  | Task.asyncKey => p.key
  | Task.asyncThread => some Phase.running

/-- Record the phase of a coroutine; a body that ends in `std::terminate()` halts the program. -/
def Program.setStatus (p : Program) (t : Task) (c : Phase) : Program :=
  let h := p.halted || decide (c = Phase.terminated)
  match t with
  | Task.asyncCountdown => { p with countdown := some c, halted := h }
  | Task.asyncKey => { p with key := some c, halted := h }
  | Task.asyncThread => { p with halted := h }

/-- The coroutine `t` performs the given actions, unless the program has halted. -/
def Program.emit (p : Program) (t : Task) (acts : List Action) : Program :=
  if p.halted then p else { p with trace := p.trace ++ acts.map fun a => (t, a) }

/-- Modelled from the spec: `ut::startAsync` (section 4.1, `start(body)`: "begins
running `body` immediately on the calling (driving) stack until the first
suspension or completion"); it is in the CppAwait library, not among the sources. -/
def startAsync (t : Task) (p : Program) : Program :=
  if p.halted then p
  else
    let r := t.body.exec []
    (p.emit t r.2.trace).setStatus t (phaseOf r)

/-- Modelled from the spec: switching into a suspended context (section 4.1,
`resume()` and `forceUnwind()`): the body goes on from its suspension point,
which returns or raises the cancellation signal, until it suspends again or
ends.  A context that is not suspended is left alone. -/
def switchInto (t : Task) (sig : Resume) (p : Program) : Program :=
  if p.halted = false ∧ p.status t = some Phase.suspended then
    let r := t.body.exec [sig]
    let done := (t.body.exec []).2.trace.length
    (p.emit t (r.2.trace.drop done)).setStatus t (phaseOf r)
  else
    p

/-- Modelled from the spec: abandoning an Awaitable (sections 4.2 and 4.4): "its
context — if Suspended — is forced through `forceUnwind()`", synchronously; this
is what the destructor of `ut::Awaitable` does ("destruction implicitly performs
`forceUnwind()` synchronously").  The destructor is in the CppAwait library, not
among the sources. -/
def abandon (t : Task) (p : Program) : Program :=
  switchInto t Resume.forcedUnwind p

/-- The call `ut::awaitAny(awtCountdown, awtKey)` of line 131, as `asyncThread`
relies on it: the caller is suspended until the first of the two Awaitables
completes (the loop switches into the body of the winner once its worker has
posted), and the other Awaitable is left as it is.  The comment of line 133,
after the call, says where the other one is dealt with: "scope end, the other
awaitable will interrupt itself".  The code of `ut::awaitAny` is in the CppAwait
library, not among the sources. -/
def awaitAny (winner : Winner) (p : Program) : Program :=
  switchInto winner.task Resume.normal (p.emit Task.asyncThread [Action.awaitAny])

/-- Modelled from the spec: `awaitAny` as section 4.5 words it, to compare with
the one above: "suspends the caller until the first Awaitable in the list
completes; upon that event, all remaining Awaitables in the list are abandoned
[...] before control returns to the caller." -/
def awaitAnySpec (winner : Winner) (p : Program) : Program :=
  abandon winner.loser
    (switchInto winner.task Resume.normal (p.emit Task.asyncThread [Action.awaitAny]))

/-- Lines 124-131 of `asyncThread`, up to the return of the combinator called at line 131. -/
def atCombinatorReturn (combinator : Winner → Program → Program) (winner : Winner) : Program :=
  let p0 : Program :=
    { trace := [(Task.asyncThread, Action.printf "hit [Return] to abort launch\n\n" [])],
      countdown := none, key := none, halted := false }
  -- ut::Awaitable awtCountdown = asyncCountdown();
  let p1 := startAsync Task.asyncCountdown p0
  -- ut::Awaitable awtKey = asyncKey();
  let p2 := startAsync Task.asyncKey p1
  -- ut::awaitAny(awtCountdown, awtKey);
  combinator winner p2

/-- Lines 123-137, the body of `asyncThread`, for a given combinator at line
131: after it returns, `sIo.stop()` is called (line 135) and the scope ends
(line 136): `awtKey`, then `awtCountdown` are destroyed. -/
def asyncThreadWith (combinator : Winner → Program → Program) (winner : Winner) : Program :=
  let p := atCombinatorReturn combinator winner
  let p1 := p.emit Task.asyncThread [Action.ioStop]
  abandon Task.asyncCountdown (abandon Task.asyncKey p1)

/-- Lines 124-131 of `asyncThread`: the program when `ut::awaitAny` returns. -/
def atAwaitAnyReturn (winner : Winner) : Program :=
  atCombinatorReturn awaitAny winner

/-- Lines 123-137, the body of `asyncThread`. -/
def asyncThread (winner : Winner) : Program :=
  asyncThreadWith awaitAny winner

/-! ## Observations on traces -/

/-- The calls in a trace that dispose of the thread of the given worker (`join` or `detach`), in order. -/
def disposals (w : Worker) (t : List Action) : List Action :=
  t.filter fun a => decide (a = Action.join w ∨ a = Action.detach w)

/-- Whether `mutex` is held by the code that performed the trace, after the trace. -/
def mutexHeldAfter (t : List Action) : Bool :=
  t.foldl (fun held a =>
    match a with
    | Action.lock => true
    | Action.unlock => false
    | _ => held) false

/-- The part of a trace from the point where the `catch` clause is entered. -/
def fromCatch (t : List Action) : List Action :=
  t.dropWhile fun a => decide (a ≠ Action.caughtForcedUnwind)

/-- What a body does from its suspension point on when that point raises
`ut::ForcedUnwind`: its cleanup, each action with the coroutine that performs it. -/
def cleanupOf (t : Task) : List (Task × Action) :=
  ((t.body.exec [Resume.forcedUnwind]).2.trace.drop (t.body.exec []).2.trace.length).map
    fun a => (t, a)

/-! ## Auxiliary facts on the countdown thread -/

theorem waitUntil_spec (flag : Nat → Bool) (w : Nat) (r : Run) :
    ∃ k, (waitUntil flag w r).trace = r.trace ++ List.replicate k Action.condWait
      ∧ (waitUntil flag w r).i = r.i := by
  induction w generalizing r with
  | zero =>
    unfold waitUntil
    split
    · exact ⟨0, by simp, rfl⟩
    · exact ⟨1, by simp, rfl⟩
  | succ w ih =>
    unfold waitUntil
    split
    · exact ⟨0, by simp, rfl⟩
    · obtain ⟨k, hk, hi⟩ := ih { r with reads := r.reads + 1, trace := r.trace ++ [Action.condWait] }
      refine ⟨k + 1, ?_, ?_⟩
      · simp only [hk, List.append_assoc, List.replicate_succ, List.singleton_append]
      · simpa using hi

theorem isLoopStep_replicate (k : Nat) :
    ∀ a ∈ List.replicate k Action.condWait, a.IsLoopStep := by
  intro a ha
  exact Or.inl (List.eq_of_mem_replicate ha)

theorem countdownValues_append (t u : List Action) :
    countdownValues (t ++ u) = countdownValues t ++ countdownValues u := by
  simp [countdownValues]

theorem countdownValues_replicate (k : Nat) :
    countdownValues (List.replicate k Action.condWait) = [] := by
  simp only [countdownValues, List.filterMap_eq_nil_iff]
  intro a ha
  rw [List.eq_of_mem_replicate ha]
  rfl

theorem countdownValues_printf (n : Nat) :
    countdownValues [Action.printf countdownFmt [n]] = [n] := by
  simp [countdownValues, Action.countdownValue]

/-- What the loop of lines 51-57 does, entered with `i`: it appends loop steps
only, the values printed are `i, i - 1, ...` down to the value of `i` it leaves
with, and it leaves with `i > 0` only after reading the flag as true. -/
theorem countdownLoop_spec (env : Schedule) (i : Nat) (r : Run) :
    ∃ ext, (countdownLoop env i r).trace = r.trace ++ ext
      ∧ (∀ a ∈ ext, a.IsLoopStep)
      ∧ (countdownLoop env i r).i ≤ i
      ∧ countdownValues ext = countFrom i (i - (countdownLoop env i r).i)
      ∧ (0 < (countdownLoop env i r).i →
          0 < (countdownLoop env i r).reads ∧ env.flag ((countdownLoop env i r).reads - 1) = true) := by
  induction i generalizing r with
  | zero =>
    refine ⟨[], by simp [countdownLoop], by simp, by simp [countdownLoop], by simp [countFrom, countdownValues], ?_⟩
    simp [countdownLoop]
  | succ i ih =>
    unfold countdownLoop
    split
    · rename_i hflag
      refine ⟨[], by simp, by simp, by simp, by simp [countFrom, countdownValues], ?_⟩
      intro _
      simpa using hflag
    · simp only
      obtain ⟨k, hk, _⟩ := waitUntil_spec env.flag (env.wakes (i + 1))
        { i := i + 1, reads := r.reads + 1,
          trace := r.trace ++ [Action.printf countdownFmt [i + 1]] }
      obtain ⟨ext, htr, hsteps, hle, hvals, hearly⟩ := ih
        (waitUntil env.flag (env.wakes (i + 1))
          { i := i + 1, reads := r.reads + 1,
            trace := r.trace ++ [Action.printf countdownFmt [i + 1]] })
      refine ⟨Action.printf countdownFmt [i + 1] :: (List.replicate k Action.condWait ++ ext),
        ?_, ?_, ?_, ?_, hearly⟩
      · rw [htr, hk]
        simp
      · intro a ha
        rcases List.mem_cons.1 ha with h | h
        · exact Or.inr ⟨i + 1, h⟩
        · rcases List.mem_append.1 h with h | h
          · exact isLoopStep_replicate k a h
          · exact hsteps a h
      · omega
      · have hsplit : Action.printf countdownFmt [i + 1] :: (List.replicate k Action.condWait ++ ext)
            = [Action.printf countdownFmt [i + 1]] ++ (List.replicate k Action.condWait ++ ext) := rfl
        rw [hsplit, countdownValues_append, countdownValues_append, countdownValues_printf,
          countdownValues_replicate, hvals]
        have : i + 1 - (countdownLoop env i (waitUntil env.flag (env.wakes (i + 1))
            { i := i + 1, reads := r.reads + 1,
              trace := r.trace ++ [Action.printf countdownFmt [i + 1]] })).i
            = (i - (countdownLoop env i (waitUntil env.flag (env.wakes (i + 1))
            { i := i + 1, reads := r.reads + 1,
              trace := r.trace ++ [Action.printf countdownFmt [i + 1]] })).i) + 1 := by omega
        rw [this]
        simp [countFrom]

theorem afterLoop_spec (env : Schedule) :
    ∃ ext, (afterLoop env).trace = Action.lock :: ext
      ∧ (∀ a ∈ ext, a.IsLoopStep)
      ∧ (afterLoop env).i ≤ 3
      ∧ countdownValues ext = countFrom 3 (3 - (afterLoop env).i)
      ∧ (0 < (afterLoop env).i →
          0 < (afterLoop env).reads ∧ env.flag ((afterLoop env).reads - 1) = true) := by
  obtain ⟨ext, htr, hsteps, hle, hvals, hearly⟩ :=
    countdownLoop_spec env 3 { i := 3, reads := 0, trace := [Action.lock] }
  exact ⟨ext, by simpa [afterLoop] using htr, hsteps, hle, hvals, hearly⟩

theorem printCount_loopSteps (msg : String) (ext : List Action)
    (h : ∀ a ∈ ext, a.IsLoopStep) : printCount msg ext = 0 := by
  unfold printCount
  rw [List.count_eq_zero]
  intro hmem
  rcases h _ hmem with h1 | ⟨n, h1⟩
  · cases h1
  · cases h1

theorem postedCallbacks_loopSteps (ext : List Action)
    (h : ∀ a ∈ ext, a.IsLoopStep) : postedCallbacks ext = [] := by
  simp only [postedCallbacks, List.filterMap_eq_nil_iff]
  intro a ha
  rcases h a ha with h1 | ⟨n, h1⟩ <;> subst h1 <;> rfl

theorem isLoopStep_plain (a : Action) (h : a.IsLoopStep) :
    a.isCoroOp = false ∧ a.isRuntimeFacing = false ∧ ∀ v, a ≠ Action.setInterrupted v := by
  rcases h with h1 | ⟨n, h1⟩ <;> subst h1 <;> exact ⟨rfl, rfl, fun v h => by cases h⟩

/-- The trace of the countdown thread: the lock, the steps of the loop, and one
of the two endings, chosen by the flag as read after the loop. -/
theorem countdownThread_trace (env : Schedule) :
    ∃ ext, (∀ a ∈ ext, a.IsLoopStep)
      ∧ countdownValues ext = countFrom 3 (3 - (afterLoop env).i)
      ∧ (countdownThread env).trace = Action.lock :: ext ++
          (if env.flag (afterLoop env).reads then
            [Action.printf "liftoff aborted!\n" [], Action.unlock]
          else
            [Action.printf "liftoff!\n" [], Action.post Callback.completer, Action.unlock]) := by
  obtain ⟨ext, htr, hsteps, _, hvals, _⟩ := afterLoop_spec env
  refine ⟨ext, hsteps, hvals, ?_⟩
  unfold countdownThread
  simp only
  split <;> simp [htr]

theorem printCount_thread (msg : String) (ext tail : List Action)
    (h : ∀ a ∈ ext, a.IsLoopStep) :
    printCount msg (Action.lock :: ext ++ tail) = printCount msg tail := by
  have h0 := printCount_loopSteps msg ext h
  unfold printCount at *
  rw [List.cons_append, List.count_cons, List.count_append, h0]
  simp

theorem postedCallbacks_thread (ext tail : List Action) (h : ∀ a ∈ ext, a.IsLoopStep) :
    postedCallbacks (Action.lock :: ext ++ tail) = postedCallbacks tail := by
  have h0 := postedCallbacks_loopSteps ext h
  unfold postedCallbacks at *
  rw [List.cons_append, List.filterMap_cons, List.filterMap_append, h0]
  simp [Action.posted]

theorem countdownValues_thread (ext tail : List Action) :
    countdownValues (Action.lock :: ext ++ tail) = countdownValues ext ++ countdownValues tail := by
  unfold countdownValues
  rw [List.cons_append, List.filterMap_cons, List.filterMap_append]
  simp [Action.countdownValue]

/-- The two endings of the countdown thread, by the flag as read after the loop. -/
theorem countdownThread_endings (env : Schedule) :
    (env.flag (afterLoop env).reads = false
      ∧ printCount "liftoff!\n" (countdownThread env).trace = 1
      ∧ printCount "liftoff aborted!\n" (countdownThread env).trace = 0
      ∧ postedCallbacks (countdownThread env).trace = [Callback.completer])
    ∨ (env.flag (afterLoop env).reads = true
      ∧ printCount "liftoff!\n" (countdownThread env).trace = 0
      ∧ printCount "liftoff aborted!\n" (countdownThread env).trace = 1
      ∧ postedCallbacks (countdownThread env).trace = []) := by
  obtain ⟨ext, hsteps, _, htr⟩ := countdownThread_trace env
  rw [htr]
  simp only [printCount_thread _ ext _ hsteps, postedCallbacks_thread ext _ hsteps]
  cases hflag : env.flag (afterLoop env).reads
  · left
    refine ⟨rfl, ?_, ?_, ?_⟩ <;> simp <;> decide
  · right
    refine ⟨rfl, ?_, ?_, ?_⟩ <;> simp <;> decide

/-- The values printed by the countdown thread are those of the loop. -/
theorem countdownThread_values (env : Schedule) :
    countdownValues (countdownThread env).trace = countFrom 3 (3 - (afterLoop env).i) := by
  obtain ⟨ext, _, hvals, htr⟩ := countdownThread_trace env
  rw [htr, countdownValues_thread, hvals]
  split <;> simp [countdownValues, Action.countdownValue]

/-- Under a monotone flag, a loop left early is followed by a true read. -/
theorem early_exit_reads_true (env : Schedule) (hmono : env.Monotone)
    (hearly : 0 < (afterLoop env).i) : env.flag (afterLoop env).reads = true := by
  obtain ⟨_, _, _, _, _, h⟩ := afterLoop_spec env
  obtain ⟨hpos, hlast⟩ := h hearly
  exact hmono ((afterLoop env).reads - 1) (afterLoop env).reads (Nat.sub_le _ _) hlast

theorem noInterrupt_monotone : noInterrupt.Monotone := by
  intro m n _ h
  simp [noInterrupt] at h

/-! ## The countdown thread: claims -/

/-- C8: for every schedule of the flag, a run of the countdown thread prints
exactly one of "liftoff!" and "liftoff aborted!"; it posts the completer exactly
once (and nothing else) when it prints "liftoff!", and posts nothing when it
prints "liftoff aborted!"; which of the two happens is decided by the value of
`isInterrupted` read after the loop: the completer is posted exactly when that
value is false. -/
theorem countdownThread_liftoff_xor_aborted (env : Schedule) :
    (env.flag (afterLoop env).reads = false
      ∧ printCount "liftoff!\n" (countdownThread env).trace = 1
      ∧ printCount "liftoff aborted!\n" (countdownThread env).trace = 0
      ∧ postedCallbacks (countdownThread env).trace = [Callback.completer])
    ∨ (env.flag (afterLoop env).reads = true
      ∧ printCount "liftoff!\n" (countdownThread env).trace = 0
      ∧ printCount "liftoff aborted!\n" (countdownThread env).trace = 1
      ∧ postedCallbacks (countdownThread env).trace = []) :=
  countdownThread_endings env

/-- C9: when `isInterrupted` only ever changes from false to true, a run of the
countdown thread that prints "liftoff!" has left the loop with `i = 0`, after
all three iterations, has printed the countdown lines for 3, 2, 1 in that order,
and has posted the completer; a run that leaves the loop early (with `i > 0`)
does not print "liftoff!" and posts nothing. -/
theorem liftoff_only_after_full_countdown (env : Schedule) (hmono : env.Monotone) :
    (Action.printf "liftoff!\n" [] ∈ (countdownThread env).trace →
        (afterLoop env).i = 0
        ∧ countdownValues (countdownThread env).trace = [3, 2, 1]
        ∧ postedCallbacks (countdownThread env).trace = [Callback.completer])
    ∧ (0 < (afterLoop env).i →
        Action.printf "liftoff!\n" [] ∉ (countdownThread env).trace
        ∧ postedCallbacks (countdownThread env).trace = []) := by
  have hends := countdownThread_endings env
  constructor
  · intro hmem
    have hcount : printCount "liftoff!\n" (countdownThread env).trace ≠ 0 := by
      unfold printCount
      rw [Ne, List.count_eq_zero]
      exact fun h => h hmem
    rcases hends with ⟨hflag, _, _, hpost⟩ | ⟨_, h0, _, _⟩
    · have hi : (afterLoop env).i = 0 := by
        by_contra hne
        have := early_exit_reads_true env hmono (Nat.pos_of_ne_zero hne)
        rw [hflag] at this
        cases this
      refine ⟨hi, ?_, hpost⟩
      rw [countdownThread_values, hi]
      rfl
    · exact absurd h0 hcount
  · intro hearly
    have hflag := early_exit_reads_true env hmono hearly
    rcases hends with ⟨hf, _, _, _⟩ | ⟨_, h0, _, hpost⟩
    · rw [hflag] at hf
      cases hf
    · refine ⟨?_, hpost⟩
      unfold printCount at h0
      exact List.count_eq_zero.1 h0

/-- Witness of C9: nobody interrupts. -/
theorem liftoff_only_after_full_countdown_witness :
    noInterrupt.Monotone
    ∧ ((Action.printf "liftoff!\n" [] ∈ (countdownThread noInterrupt).trace →
        (afterLoop noInterrupt).i = 0
        ∧ countdownValues (countdownThread noInterrupt).trace = [3, 2, 1]
        ∧ postedCallbacks (countdownThread noInterrupt).trace = [Callback.completer])
      ∧ (0 < (afterLoop noInterrupt).i →
        Action.printf "liftoff!\n" [] ∉ (countdownThread noInterrupt).trace
        ∧ postedCallbacks (countdownThread noInterrupt).trace = [])) :=
  ⟨noInterrupt_monotone, liftoff_only_after_full_countdown noInterrupt noInterrupt_monotone⟩

/-- C10: for every schedule of the flag, also one in which the flag is true
before the first test, the loop runs at most three iterations and the values it
prints in "N seconds until liftoff..." are a prefix of 3, 2, 1; when the flag is
never seen true they are exactly 3, 2, 1. -/
theorem countdown_prints_prefix_of_3_2_1 (env : Schedule) :
    (countdownValues (countdownThread env).trace).length ≤ 3
    ∧ countdownValues (countdownThread env).trace <+: [3, 2, 1]
    ∧ ((∀ n, env.flag n = false) → countdownValues (countdownThread env).trace = [3, 2, 1]) := by
  rw [countdownThread_values]
  obtain ⟨_, _, _, hle, _, hearly⟩ := afterLoop_spec env
  refine ⟨?_, ?_, ?_⟩
  · generalize (afterLoop env).i = j at hle
    interval_cases j <;> decide
  · generalize (afterLoop env).i = j at hle
    interval_cases j <;> decide
  · intro hnever
    have hi : (afterLoop env).i = 0 := by
      by_contra hne
      have := (hearly (Nat.pos_of_ne_zero hne)).2
      rw [hnever] at this
      cases this
    rw [hi]
    rfl

/-- Witness of C10: nobody interrupts, and the values are exactly 3, 2, 1. -/
theorem countdown_prints_prefix_of_3_2_1_witness :
    (∀ n, noInterrupt.flag n = false)
    ∧ countdownValues (countdownThread noInterrupt).trace = [3, 2, 1] :=
  ⟨fun _ => rfl, (countdown_prints_prefix_of_3_2_1 noInterrupt).2.2 (fun _ => rfl)⟩

/-- Without the assumption of C9 the liftoff branch can follow an early exit:
the flag is seen true at the first test of the loop and false after it. -/
theorem liftoff_after_early_exit_when_flag_resets :
    (countdownThread { flag := fun n => decide (n = 0), wakes := fun _ => 0 }).trace
      = [Action.lock, Action.printf "liftoff!\n" [], Action.post Callback.completer,
         Action.unlock] := by
  decide

/-! ## The worker threads and the run loop -/

/-- What a worker does on its own stack: no coroutine operation, no write of
`isInterrupted`, and towards the runtime only `sIo.post`. -/
theorem workerActions_plain (env : Schedule) (w : Worker) (a : Action)
    (h : a ∈ workerActions env w) :
    a.isCoroOp = false ∧ (∀ v, a ≠ Action.setInterrupted v)
      ∧ (a.isRuntimeFacing = true → ∃ cb, a = Action.post cb) := by
  cases w with
  | countdownThread =>
    obtain ⟨ext, hsteps, _, htr⟩ := countdownThread_trace env
    simp only [workerActions, htr] at h
    rcases List.mem_append.1 h with h1 | h1
    · rcases List.mem_cons.1 h1 with h2 | h2
      · subst h2
        simp [Action.isCoroOp, Action.isRuntimeFacing]
      · obtain ⟨hc, hr, hw⟩ := isLoopStep_plain a (hsteps a h2)
        refine ⟨hc, hw, ?_⟩
        intro hf
        rw [hr] at hf
        cases hf
    · split at h1
      · simp only [List.mem_cons, List.mem_singleton, List.not_mem_nil, or_false] at h1
        rcases h1 with h2 | h2 <;> subst h2 <;> simp [Action.isCoroOp, Action.isRuntimeFacing]
      · simp only [List.mem_cons, List.mem_singleton, List.not_mem_nil, or_false] at h1
        rcases h1 with h2 | h2 | h2 <;> subst h2 <;> simp [Action.isCoroOp, Action.isRuntimeFacing]
  | keyThread =>
    simp only [workerActions, keyThread, List.mem_cons, List.mem_singleton, List.not_mem_nil,
      or_false] at h
    rcases h with h2 | h2 <;> subst h2 <;> simp [Action.isCoroOp, Action.isRuntimeFacing]

/-- C4: no worker thread performs a coroutine operation (completer invocation,
`yieldTo`, `await`, `yield`) on its own stack; the only runtime-facing action of
`countdownThread` and of `keyThread` is `sIo.post(callback)`; and every
coroutine operation of the program, so every resume of a coroutine, is
performed by the thread that runs the loop. -/
theorem workers_only_post (env : Schedule) :
    (∀ w a, a ∈ workerActions env w →
        a.isCoroOp = false ∧ (a.isRuntimeFacing = true → ∃ cb, a = Action.post cb))
    ∧ (∀ e ∈ programEvents env, e.2.isCoroOp = true → e.1 = ThreadId.main) := by
  constructor
  · intro w a h
    exact ⟨(workerActions_plain env w a h).1, (workerActions_plain env w a h).2.2⟩
  · intro e he hop
    simp only [programEvents, workerEvents, loopEvents, bodyEvents, List.mem_append,
      List.mem_map] at he
    rcases he with ((⟨a, ha, rfl⟩ | ⟨a, ha, rfl⟩) | ⟨a, _, rfl⟩) | ⟨a, _, rfl⟩
    · rw [(workerActions_plain env _ a ha).1] at hop
      cases hop
    · rw [(workerActions_plain env _ a ha).1] at hop
      cases hop
    · rfl
    · rfl

/-- C3, as the code has it: `countdownThread` hands the loop the completer only,
but `keyThread` hands it the closure that calls `ut::yieldTo(coro)` on the raw
coroutine pointer, which is not a completer; so it is not the case that every
callback a worker posts is a completer. -/
theorem keyThread_posts_yieldTo_closure :
    postedCallbacks (workerActions noInterrupt Worker.countdownThread) = [Callback.completer]
    ∧ postedCallbacks (workerActions noInterrupt Worker.keyThread) = [Callback.yieldToCoro]
    ∧ runCallback Callback.yieldToCoro = [Action.yieldTo]
    ∧ ¬ (∀ w cb, cb ∈ postedCallbacks (workerActions noInterrupt w) → cb = Callback.completer) := by
  refine ⟨by decide, by decide, rfl, ?_⟩
  intro h
  have := h Worker.keyThread Callback.yieldToCoro (by decide)
  cases this

/-! ## The coroutine bodies: claims -/

/-- The run of the body of `asyncCountdown` whose suspension point raises
`ut::ForcedUnwind`, whatever signals are queued behind it. -/
theorem asyncCountdown_unwind_run (rest : List Resume) :
    asyncCountdownBody.exec (Resume.forcedUnwind :: rest) =
      (Except.ok (),
        { inbox := rest
          trace := [Action.takeCompleter, Action.spawn Worker.countdownThread, Action.await,
            Action.caughtForcedUnwind, Action.printf "aborting liftoff...\n" [], Action.lock,
            Action.setInterrupted true, Action.notifyOne, Action.unlock,
            Action.join Worker.countdownThread, Action.printf "\njoined countdown thread\n" []]
          mutexHeld := false
          isInterrupted := true
          thread := ThreadStatus.joined
          awtLiftoff := some AwtStatus.destroyed }) :=
  rfl

/-- The run of the body of `asyncKey` whose suspension point raises
`ut::ForcedUnwind`, whatever signals are queued behind it. -/
theorem asyncKey_unwind_run (rest : List Resume) :
    asyncKeyBody.exec (Resume.forcedUnwind :: rest) =
      (Except.ok (),
        { inbox := rest
          trace := [Action.currentCoro, Action.spawn Worker.keyThread, Action.yield,
            Action.caughtForcedUnwind, Action.detach Worker.keyThread,
            Action.printf "\nkilled key thread\n" []]
          mutexHeld := false
          isInterrupted := false
          thread := ThreadStatus.detached
          awtLiftoff := none }) :=
  rfl

/-- C1: on either path through the body of `asyncCountdown` and of `asyncKey`
(the suspension point returns, or raises `ut::ForcedUnwind`) the body returns,
the thread it started, joinable at the suspension point, is disposed of by
exactly one call, and is not joinable when the body returns: `countdownThread`
is joined on both paths, `keyThread` is joined on the normal path and detached
on the `ForcedUnwind` path. -/
theorem thread_disposed_exactly_once (sig : Resume) :
    ((asyncCountdownBody.exec []).2.thread = ThreadStatus.joinable
      ∧ (asyncCountdown sig).1 = Except.ok ()
      ∧ disposals Worker.countdownThread (asyncCountdown sig).2.trace
          = [Action.join Worker.countdownThread]
      ∧ (asyncCountdown sig).2.thread = ThreadStatus.joined)
    ∧ ((asyncKeyBody.exec []).2.thread = ThreadStatus.joinable
      ∧ (asyncKey sig).1 = Except.ok ()
      ∧ disposals Worker.keyThread (asyncKey sig).2.trace
          = (match sig with
            | Resume.normal => [Action.join Worker.keyThread]
            | Resume.forcedUnwind => [Action.detach Worker.keyThread])
      ∧ (asyncKey sig).2.thread
          = (match sig with
            | Resume.normal => ThreadStatus.joined
            | Resume.forcedUnwind => ThreadStatus.detached)) := by
  cases sig
  · exact ⟨⟨rfl, rfl, by decide, rfl⟩, ⟨rfl, rfl, by decide, rfl⟩⟩
  · exact ⟨⟨rfl, rfl, by decide, rfl⟩, ⟨rfl, rfl, by decide, rfl⟩⟩

/-- C6: in the body of `asyncCountdown` and of `asyncKey`, when the suspension
point raises `ut::ForcedUnwind` the `catch` clause is entered, from there to its
end the body performs no suspension (no `await`, `yield`, `yieldTo`,
`awaitAny`), it consumes no further signal, and it returns: no `ForcedUnwind`
leaves the body. -/
theorem forcedUnwind_absorbed_without_resuspension (rest : List Resume) :
    ((asyncCountdownBody.exec (Resume.forcedUnwind :: rest)).1 = Except.ok ()
      ∧ (asyncCountdownBody.exec (Resume.forcedUnwind :: rest)).2.inbox = rest
      ∧ Action.caughtForcedUnwind ∈ (asyncCountdownBody.exec (Resume.forcedUnwind :: rest)).2.trace
      ∧ ∀ a ∈ fromCatch (asyncCountdownBody.exec (Resume.forcedUnwind :: rest)).2.trace,
          a.isSuspension = false)
    ∧ ((asyncKeyBody.exec (Resume.forcedUnwind :: rest)).1 = Except.ok ()
      ∧ (asyncKeyBody.exec (Resume.forcedUnwind :: rest)).2.inbox = rest
      ∧ Action.caughtForcedUnwind ∈ (asyncKeyBody.exec (Resume.forcedUnwind :: rest)).2.trace
      ∧ ∀ a ∈ fromCatch (asyncKeyBody.exec (Resume.forcedUnwind :: rest)).2.trace,
          a.isSuspension = false) := by
  rw [asyncCountdown_unwind_run, asyncKey_unwind_run]
  simp only [true_and]
  exact ⟨⟨by decide, by decide⟩, ⟨by decide, by decide⟩⟩

/-- C7: on the cancellation path of `asyncCountdown` the cleanup is, in this
order: the mutex is acquired, `isInterrupted` is set to true, the condition
variable is notified, the mutex is released, `countdownThread.join()` is called.
On every path of the body a write of `isInterrupted` writes true and is made
with the mutex held, the notification is made with the mutex held, and the
mutex is not held at the call of `join`; the countdown thread never writes
`isInterrupted`. -/
theorem cancellation_cleanup_order (sig : Resume) :
    fromCatch (asyncCountdown Resume.forcedUnwind).2.trace =
        [Action.caughtForcedUnwind, Action.printf "aborting liftoff...\n" [], Action.lock,
         Action.setInterrupted true, Action.notifyOne, Action.unlock,
         Action.join Worker.countdownThread, Action.printf "\njoined countdown thread\n" []]
    ∧ (∀ k, k < (asyncCountdown sig).2.trace.length → ∀ v : Bool,
        (asyncCountdown sig).2.trace[k]? = some (Action.setInterrupted v) →
          v = true ∧ mutexHeldAfter ((asyncCountdown sig).2.trace.take k) = true)
    ∧ (∀ k, k < (asyncCountdown sig).2.trace.length →
        (asyncCountdown sig).2.trace[k]? = some Action.notifyOne →
          mutexHeldAfter ((asyncCountdown sig).2.trace.take k) = true)
    ∧ (∀ k, k < (asyncCountdown sig).2.trace.length →
        (asyncCountdown sig).2.trace[k]? = some (Action.join Worker.countdownThread) →
          mutexHeldAfter ((asyncCountdown sig).2.trace.take k) = false)
    ∧ (∀ (env : Schedule) (v : Bool),
        Action.setInterrupted v ∉ (countdownThread env).trace) := by
  refine ⟨by decide, ?_, ?_, ?_, ?_⟩
  · cases sig <;> decide
  · cases sig <;> decide
  · cases sig <;> decide
  · intro env v hmem
    exact (workerActions_plain env Worker.countdownThread _ hmem).2.1 v rfl

/-! ## The runtime: claims -/

/-- On a pending Awaitable the completer delivers once: the first invocation
completes it and schedules one resumption, the second changes nothing. -/
theorem completer_delivers_once (w : CtxStatus) (k : Nat) :
    Completer.invoke { awt := AwtStatus.pending, waiter := w, scheduled := k }
        = { awt := AwtStatus.completed, waiter := w, scheduled := k + 1 }
    ∧ Completer.invoke (Completer.invoke { awt := AwtStatus.pending, waiter := w, scheduled := k })
        = { awt := AwtStatus.completed, waiter := w, scheduled := k + 1 } :=
  ⟨rfl, rfl⟩

/-- C2: when the Awaitable of a completer is already completed, cancelled or
destroyed, running the completer any number of times leaves the Awaitable, the
waiting coroutine and the scheduled resumptions as they are.  (Witness: the
state in which the cancelled body of `asyncCountdown` leaves `awtLiftoff` once
`countdownThread.join()` has returned and the body has ended.) -/
theorem stale_completer_is_noop (s : CompletionSlot)
    (h : s.awt = AwtStatus.completed ∨ s.awt = AwtStatus.cancelled ∨ s.awt = AwtStatus.destroyed)
    (n : Nat) : Completer.invoke^[n] s = s := by
  have hstep : Completer.invoke s = s := by
    unfold Completer.invoke
    rcases h with h | h | h <;> rw [h]
  exact Function.iterate_fixed hstep n

/-- Witness of C2: the completer of `awtLiftoff`, run three times after
`asyncCountdown` was cancelled. -/
theorem stale_completer_is_noop_witness :
    ((slotAfter (asyncCountdown Resume.forcedUnwind)).awt = AwtStatus.completed
      ∨ (slotAfter (asyncCountdown Resume.forcedUnwind)).awt = AwtStatus.cancelled
      ∨ (slotAfter (asyncCountdown Resume.forcedUnwind)).awt = AwtStatus.destroyed)
    ∧ Completer.invoke^[3] (slotAfter (asyncCountdown Resume.forcedUnwind))
        = slotAfter (asyncCountdown Resume.forcedUnwind) :=
  ⟨Or.inr (Or.inr rfl),
    stale_completer_is_noop (slotAfter (asyncCountdown Resume.forcedUnwind))
      (Or.inr (Or.inr rfl)) 3⟩

/-- With the combinator as section 4.5 of the spec words it, the other coroutine
has returned when the combinator returns, before `sIo.stop()`, and the end of
the scope adds nothing. -/
theorem awaitAnySpec_abandons_before_return (winner : Winner) :
    (atCombinatorReturn awaitAnySpec winner).status winner.loser = some Phase.returned
    ∧ cleanupOf winner.loser <:+ (atCombinatorReturn awaitAnySpec winner).trace
    ∧ (Task.asyncThread, Action.ioStop) ∉ (atCombinatorReturn awaitAnySpec winner).trace
    ∧ (asyncThreadWith awaitAnySpec winner).trace
        = (atCombinatorReturn awaitAnySpec winner).trace ++ [(Task.asyncThread, Action.ioStop)] := by
  cases winner <;> decide

/-- The two readings of the combinator give the same actions of `asyncThread`,
up to the place of `sIo.stop()`: the same coroutines return, and only the order
of `sIo.stop()` and the cleanup of the other coroutine differs. -/
theorem readings_differ_in_order_only (winner : Winner) :
    (asyncThread winner).status = (asyncThreadWith awaitAnySpec winner).status
    ∧ (asyncThreadWith awaitAnySpec winner).trace
        = (atAwaitAnyReturn winner).trace ++ cleanupOf winner.loser
            ++ [(Task.asyncThread, Action.ioStop)] := by
  cases winner
  · exact ⟨by funext t; cases t <;> decide, by decide⟩
  · exact ⟨by funext t; cases t <;> decide, by decide⟩

end CppAwait
